import Mathlib

/-!
Verification of the cursor-trajectory engine: a shallow embedding of the
movement-algorithm sources (the `MovementEngine` facade, the
`BezierMovementAlgorithm` with its helpers `fitts`, `clampPositive`,
`generateTimestamps`, `computeDuration`, `buildMetrics`) together with the
geometry primitives and cursor-state controller that the repository's tests
exercise.  Numbers are rationals; the two real-valued primitives the code
takes from the host math library (`Math.log2`, `Math.sqrt`) are abstract
function parameters collected in `MathEnv`, so theorems quantify over any
implementation and hypotheses record the facts of the real functions that a
proof needs.
-/

namespace GhostCursor

/-- A plain planar vector `{x, y}` (the `Vector` type of the source). -/
structure Vec where
  x : ℚ
  y : ℚ
deriving DecidableEq, Repr

/-- A trace point: planar coordinates plus the optional integer-millisecond
timestamp that `TimedVector` adds to `Vector`. -/
structure PVec where
  x : ℚ
  y : ℚ
  timestamp : Option ℤ := none
deriving DecidableEq, Repr

/-- Forget the timestamp of a trace point. -/
def PVec.toVec (v : PVec) : Vec := ⟨v.x, v.y⟩

/-- Abstract real-valued primitives used by the code: `Math.log2` and
`Math.sqrt`.  They are parameters of the model; theorems state the properties
of the true functions they rely on as hypotheses. -/
structure MathEnv where
  Log2 : ℚ → ℚ
  Sqrt : ℚ → ℚ

/-- Modelled from the spec: `direction(a,b) = b − a` from the geometry
primitives of the missing `math` module. -/
def direction (a b : Vec) : Vec := ⟨b.x - a.x, b.y - a.y⟩

/-- Modelled from the spec: `magnitude(v)` is the Euclidean norm of `v`
(missing `math` module); the square root is taken from the environment. -/
def magnitude (env : MathEnv) (v : Vec) : ℚ := env.Sqrt (v.x ^ 2 + v.y ^ 2)

/-- Modelled from the spec: `extrapolate(p0,p1)` continues the ray from `p0`
through `p1` by the same displacement (missing `math` module). -/
def extrapolate (p0 p1 : Vec) : Vec := ⟨p1.x + (p1.x - p0.x), p1.y + (p1.y - p0.y)⟩

/-- A cubic curve given by its four control points (missing `math` module's
curve type). -/
structure CubicBezier where
  P0 : Vec
  P1 : Vec
  P2 : Vec
  P3 : Vec
deriving DecidableEq, Repr

/-- Modelled from the spec: evaluation of the cubic curve at parameter `t`
(Bernstein form), from the missing `math` module. -/
def bezierPoint (c : CubicBezier) (t : ℚ) : Vec :=
  ⟨(1 - t) ^ 3 * c.P0.x + 3 * (1 - t) ^ 2 * t * c.P1.x
      + 3 * (1 - t) * t ^ 2 * c.P2.x + t ^ 3 * c.P3.x,
    (1 - t) ^ 3 * c.P0.y + 3 * (1 - t) ^ 2 * t * c.P1.y
      + 3 * (1 - t) * t ^ 2 * c.P2.y + t ^ 3 * c.P3.y⟩

/-- Modelled from the spec: `bezierCurveSpeed(t, P0, P1, P2, P3)` is the
magnitude of the curve's first derivative at `t` for an arbitrary 4-point
window (missing `math` module). -/
def bezierCurveSpeed (env : MathEnv) (t : ℚ) (P0 P1 P2 P3 : Vec) : ℚ :=
  let dx := 3 * (1 - t) ^ 2 * (P1.x - P0.x) + 6 * (1 - t) * t * (P2.x - P1.x)
      + 3 * t ^ 2 * (P3.x - P2.x)
  let dy := 3 * (1 - t) ^ 2 * (P1.y - P0.y) + 6 * (1 - t) * t * (P2.y - P1.y)
      + 3 * t ^ 2 * (P3.y - P2.y)
  env.Sqrt (dx ^ 2 + dy ^ 2)

/-- Modelled from the spec: `curve.getLUT(steps)` samples the curve at
`steps + 1` evenly parameterized points including both endpoints (missing
`math` module).  For a non-positive `steps` the single point at parameter 0
is produced (rational division by zero is zero). -/
def getLUT (c : CubicBezier) (steps : ℤ) : List Vec :=
  (List.range (steps.toNat + 1)).map fun (i : ℕ) => bezierPoint c ((i : ℚ) / (steps : ℚ))

/-- Modelled from the spec: `curve.length()`, a numerical arc-length
approximation of the curve (missing `math` module), modelled as the summed
chord lengths of ten evenly parameterized segments. -/
def curveLength (env : MathEnv) (c : CubicBezier) : ℚ :=
  ((List.range 10).map fun (k : ℕ) =>
    magnitude env (direction (bezierPoint c ((k : ℚ) / 10)) (bezierPoint c (((k : ℚ) + 1) / 10)))).sum

/-- Modelled from the spec: `bezierCurve(start, finish, spreadOverride)` from
the missing `math` module builds a cubic curve whose two interior control
points are randomized around the chord, displaced by up to the spread
(`spreadOverride` when given, else a distance-derived default); `r1 … r4` are
the pseudo-random draws in `[0, 1)` used for the two displacements. -/
def bezierCurve (env : MathEnv) (start finish : Vec) (spreadOverride : Option ℚ)
    (r1 r2 r3 r4 : ℚ) : CubicBezier :=
  let spread := spreadOverride.getD (magnitude env (direction start finish) / 2)
  { P0 := start
    P1 := ⟨start.x + (finish.x - start.x) / 3 + spread * (2 * r1 - 1),
           start.y + (finish.y - start.y) / 3 + spread * (2 * r2 - 1)⟩
    P2 := ⟨start.x + 2 * (finish.x - start.x) / 3 + spread * (2 * r3 - 1),
           start.y + 2 * (finish.y - start.y) / 3 + spread * (2 * r4 - 1)⟩
    P3 := finish }

/-- JavaScript's `Math.round`: round half toward positive infinity. -/
def jsRound (q : ℚ) : ℤ := ⌊q + 1 / 2⌋

/-- The destination of a movement request: a point (`Vector`) or a bounding
box (`BoundingBox`, a `TargetRegion`). -/
inductive Dest where
  | point (v : Vec)
  | box (x y width height : ℚ)
deriving DecidableEq, Repr

/-- `MovementOptions` from `types`: all fields optional; `useTimestamps` is
kept optional here because the facade normalizes it, while the algorithm
tests it against `true`. -/
structure MovementOptions where
  spreadOverride : Option ℚ := none
  moveSpeed : Option ℚ := none
  useTimestamps : Option Bool := none
deriving DecidableEq, Repr

/-- `MovementContext` from `types`: start, destination and options.  The
start is a trace point because the controller hands its current (possibly
timestamped) location straight through. -/
structure MovementContext where
  start : PVec
  dest : Dest
  options : MovementOptions
deriving DecidableEq, Repr

/-- `MovementMetrics` from `types`: step count, straight-line distance,
target width and optional duration. -/
structure MovementMetrics where
  steps : ℕ
  distance : ℚ
  width : ℚ
  duration : Option ℤ
deriving DecidableEq, Repr

/-- `MovementTrace` from `types`: algorithm identifier, ordered vectors and
metrics. -/
structure MovementTrace where
  algorithm : String
  vectors : List PVec
  metrics : MovementMetrics
deriving DecidableEq, Repr

/-- A pluggable movement algorithm is a function from context to trace. -/
abbrev MovementAlgorithm := MovementContext → MovementTrace

/-- The pseudo-random draws one `BezierMovementAlgorithm.generate` call can
consume, in consumption order: four for the control points of the curve, one
for the speed-factor fallback, one for the timestamp-divisor fallback. -/
structure RandomDraws where
  r1 : ℚ
  r2 : ℚ
  r3 : ℚ
  r4 : ℚ
  rSpeed : ℚ
  rTs : ℚ
deriving DecidableEq, Repr

/-- `DEFAULT_WIDTH` from the bezier algorithm source. -/
def DEFAULT_WIDTH : ℚ := 100

/-- `MIN_STEPS` from the bezier algorithm source. -/
def MIN_STEPS : ℚ := 25

/-- `fitts(distance, width)` from the bezier algorithm source:
`a + b * log2(distance / width + 1)` with `a = 0`, `b = 2`. -/
def fitts (env : MathEnv) (distance width : ℚ) : ℚ :=
  0 + 2 * env.Log2 (distance / width + 1)

/-- `toVector` from the bezier algorithm source: project a point-like value
to its coordinates. -/
def toVector (dest : Dest) : Vec :=
  match dest with
  | .point v => v
  | .box x y _ _ => ⟨x, y⟩

/-- Width resolution in `BezierMovementAlgorithm.generate`:
`'width' in end && end.width !== 0 ? end.width : DEFAULT_WIDTH`. -/
def resolveWidth (dest : Dest) : ℚ :=
  match dest with
  | .point _ => DEFAULT_WIDTH
  | .box _ _ w _ => if w ≠ 0 then w else DEFAULT_WIDTH

/-- Speed-factor resolution in `BezierMovementAlgorithm.generate`:
`options.moveSpeed !== undefined && options.moveSpeed > 0 ? 25 / options.moveSpeed
: Math.random()`. -/
def speedFactor (options : MovementOptions) (rSpeed : ℚ) : ℚ :=
  match options.moveSpeed with
  | some m => if 0 < m then 25 / m else rSpeed
  | none => rSpeed

/-- The step-count computation in `BezierMovementAlgorithm.generate`:
`Math.ceil((Math.log2(fitts(length, width) + 1) + baseTime) * 3)` where
`baseTime = speed * MIN_STEPS`. -/
def stepCount (env : MathEnv) (length width speed : ℚ) : ℤ :=
  ⌈(env.Log2 (fitts env length width + 1) + speed * MIN_STEPS) * 3⌉

/-- Coordinate clamping of a single vector: `Math.max(0, …)` on both axes. -/
def clampVec (v : Vec) : Vec := ⟨max 0 v.x, max 0 v.y⟩

/-- The timestamp divisor resolved at the top of `generateTimestamps`:
`options.moveSpeed ?? (Math.random() * 0.5 + 0.5)`. -/
def tsSpeed (options : MovementOptions) (rTs : ℚ) : ℚ :=
  options.moveSpeed.getD (rTs * (1 / 2) + 1 / 2)

/-- `timeToMove(P0, P1, P2, P3, samples)` from `generateTimestamps`:
trapezoidal integration of the window's curve speed over `samples` steps of
size `dt = 1 / samples` (the first factor is sampled at `t * dt` exactly as
in the source), divided by the divisor and rounded. -/
def timeToMove (env : MathEnv) (speed : ℚ) (P0 P1 P2 P3 : Vec) (samples : ℕ) : ℤ :=
  let dt : ℚ := 1 / samples
  let total := ((List.range samples).map fun (k : ℕ) =>
    let t : ℚ := (k : ℚ) * dt
    (bezierCurveSpeed env (t * dt) P0 P1 P2 P3 + bezierCurveSpeed env t P0 P1 P2 P3)
      * dt / 2).sum
  jsRound (total / speed)

/-- The 4-point window `generateTimestamps` builds around vector `i ≥ 1`:
the previous and current vectors plus the following two, with extrapolated
virtual points past the end of the list. -/
def tsWindow (vectors : List Vec) (i : ℕ) : Vec × Vec × Vec × Vec :=
  let P0 := vectors.getD (i - 1) ⟨0, 0⟩
  let P1 := vectors.getD i ⟨0, 0⟩
  let P2 := if i + 1 < vectors.length then vectors.getD (i + 1) ⟨0, 0⟩ else extrapolate P0 P1
  let P3 := if i + 2 < vectors.length then vectors.getD (i + 2) ⟨0, 0⟩ else extrapolate P1 P2
  (P0, P1, P2, P3)

/-- The elapsed time `generateTimestamps` adds at vector `i ≥ 1`:
`timeToMove` over the window at `i` with `samples = vectors.length`. -/
def elapsedTime (env : MathEnv) (speed : ℚ) (vectors : List Vec) (i : ℕ) : ℤ :=
  let w := tsWindow vectors i
  timeToMove env speed w.1 w.2.1 w.2.2.1 w.2.2.2 vectors.length

/-- `generateTimestamps(vectors, options)` from the bezier algorithm source:
vector 0 gets the current wall-clock time `now`; each later vector gets the
previous timestamp plus `elapsedTime` at its index, i.e. `now` plus the
running sum of the elapsed times. -/
def generateTimestamps (env : MathEnv) (rTs : ℚ) (now : ℤ) (vectors : List Vec)
    (options : MovementOptions) : List PVec :=
  let speed := tsSpeed options rTs
  (List.range vectors.length).map fun i =>
    let v := vectors.getD i ⟨0, 0⟩
    ⟨v.x, v.y, some (now + ((List.range i).map fun j => elapsedTime env speed vectors (j + 1)).sum)⟩

/-- `clampPositive(vectors, options)` from the bezier algorithm source:
clamp all coordinates to be nonnegative, then attach timestamps exactly when
`options.useTimestamps === true`. -/
def clampPositive (env : MathEnv) (rTs : ℚ) (now : ℤ) (vectors : List Vec)
    (options : MovementOptions) : List PVec :=
  let clampedVectors := vectors.map clampVec
  if options.useTimestamps = some true then
    generateTimestamps env rTs now clampedVectors options
  else
    clampedVectors.map fun v => ⟨v.x, v.y, none⟩

/-- `computeDuration(vectors)` from the bezier algorithm source: `null` for
an empty trace or when the first vector carries no timestamp, otherwise the
last timestamp minus the first. -/
def computeDuration (vectors : List PVec) : Option ℤ :=
  match vectors with
  | [] => none
  | first :: rest =>
    match first.timestamp with
    | none => none
    | some t0 => some (((first :: rest).getLast (List.cons_ne_nil _ _)).timestamp.getD 0 - t0)

/-- `buildMetrics(start, finish, width, vectors)` from the bezier algorithm
source. -/
def buildMetrics (env : MathEnv) (start finish : Vec) (width : ℚ)
    (vectors : List PVec) : MovementMetrics :=
  { steps := vectors.length
    distance := magnitude env (direction start finish)
    width := width
    duration := computeDuration vectors }

/-- The curve `BezierMovementAlgorithm.generate` builds for a context. -/
def traceCurve (env : MathEnv) (rng : RandomDraws) (ctx : MovementContext) : CubicBezier :=
  bezierCurve env ctx.start.toVec (toVector ctx.dest) ctx.options.spreadOverride
    rng.r1 rng.r2 rng.r3 rng.r4

/-- The damped curve length `BezierMovementAlgorithm.generate` computes:
`curve.length() * 0.8`. -/
def traceLength (env : MathEnv) (rng : RandomDraws) (ctx : MovementContext) : ℚ :=
  curveLength env (traceCurve env rng ctx) * (8 / 10)

/-- The sampling parameter `steps` that `BezierMovementAlgorithm.generate`
computes for a context. -/
def traceSteps (env : MathEnv) (rng : RandomDraws) (ctx : MovementContext) : ℤ :=
  stepCount env (traceLength env rng ctx) (resolveWidth ctx.dest)
    (speedFactor ctx.options rng.rSpeed)

/-- The clamped curve samples of one generation (the list that timestamp
generation receives). -/
def clampedSamples (env : MathEnv) (rng : RandomDraws) (ctx : MovementContext) : List Vec :=
  (getLUT (traceCurve env rng ctx) (traceSteps env rng ctx)).map clampVec

/-- `BezierMovementAlgorithm.generate(context)` from the bezier algorithm
source, with the pseudo-random draws and the wall clock passed explicitly. -/
def BezierMovementAlgorithm.generate (env : MathEnv) (rng : RandomDraws) (now : ℤ)
    (ctx : MovementContext) : MovementTrace :=
  let finish := toVector ctx.dest
  let width := resolveWidth ctx.dest
  let vectors := clampPositive env rng.rTs now
    (getLUT (traceCurve env rng ctx) (traceSteps env rng ctx)) ctx.options
  { algorithm := "bezier-default"
    vectors := vectors
    metrics := buildMetrics env ctx.start.toVec finish width vectors }

/-- `normalizeOptions(options)` from the engine source: pass the numeric
overrides through and default `useTimestamps` to `false`. -/
def normalizeOptions (options : Option MovementOptions) : MovementOptions :=
  { spreadOverride := options.bind (·.spreadOverride)
    moveSpeed := options.bind (·.moveSpeed)
    useTimestamps := some ((options.bind (·.useTimestamps)).getD false) }

/-- `MovementEngine.generate(start, end, options)` from the engine source:
build the context with normalized options and defer to the algorithm. -/
def MovementEngine.generate (algorithm : MovementAlgorithm) (start : PVec) (dest : Dest)
    (options : Option MovementOptions) : MovementTrace :=
  algorithm { start := start, dest := dest, options := normalizeOptions options }

/-- Modelled from the spec: the cursor-state controller's `moveTo` (the
`GhostCursor` class of the missing `spoof` module).  It requests a trace from
the facade using the current position as start, dispatches the vectors in
order, and on full success replaces the current position with the last
dispatched vector; dispatch success is assumed here because the transport is
a collaborator outside the core. -/
def moveTo (algorithm : MovementAlgorithm) (pos : PVec) (dest : Dest)
    (options : Option MovementOptions) : PVec × MovementTrace :=
  let trace := MovementEngine.generate algorithm pos dest options
  (trace.vectors.getLast?.getD pos, trace)

/-- A concrete environment for witnesses and counterexamples: a linear
stand-in for `log2` with `Log2 1 = 0` that is monotone and nonnegative on
`[1, ∞)`, and the identity for the square root, which is nonnegative on
nonnegative inputs and zero at zero. -/
def qEnv : MathEnv := ⟨fun q => q / 100, fun q => q⟩

/-- A concrete environment whose square root is constantly zero (so curve
lengths vanish and step counts stay small) and whose `Log2` satisfies
`Log2 1 = 0`. -/
def zeroSqrtEnv : MathEnv := ⟨fun q => q - 1, fun _ => 0⟩

/-- A concrete environment whose `Log2` is strictly monotone with
`Log2 1 = 0`, used to exhibit two difficulties whose step counts tie. -/
def qmEnv : MathEnv := ⟨fun q => (q - 1) / 100, fun q => q⟩

/-- Concrete pseudo-random draws, all zero. -/
def zeroDraws : RandomDraws := ⟨0, 0, 0, 0, 0, 0⟩

/-- A scripted two-vector algorithm used as a controller test double. -/
def scriptedAlg : MovementAlgorithm := fun ctx =>
  { algorithm := "scripted"
    vectors := [ctx.start, ⟨5, 6, some 7⟩]
    metrics := ⟨2, 0, 0, none⟩ }

/-- Concrete request A: negative start `(-50, -25)`, point destination
`(10, 5)`, spread 10, move speed 1250, no timestamps. -/
def ctxA : MovementContext :=
  ⟨⟨-50, -25, none⟩, .point ⟨10, 5⟩, ⟨some 10, some 1250, none⟩⟩

/-- Concrete request B: negative start `(-50, -25)`, point destination
`(10, 5)`, spread 0, move speed 2500, no timestamps. -/
def ctxB : MovementContext :=
  ⟨⟨-50, -25, none⟩, .point ⟨10, 5⟩, ⟨some 0, some 2500, none⟩⟩

/-- Concrete request C: start `(0, 0)`, point destination `(100, 0)`,
spread 0, negative move speed `-1`, timestamps requested. -/
def ctxC : MovementContext :=
  ⟨⟨0, 0, none⟩, .point ⟨100, 0⟩, ⟨some 0, some (-1), some true⟩⟩

/-- Concrete request D: start `(0, 0)`, point destination `(100, 0)`,
spread 0, move speed 2500, timestamps requested. -/
def ctxD : MovementContext :=
  ⟨⟨0, 0, none⟩, .point ⟨100, 0⟩, ⟨some 0, some 2500, some true⟩⟩

/-- Concrete request E: degenerate request whose start and destination are
both `(100, 100)`, spread 30, move speed 1250, no timestamps. -/
def ctxE : MovementContext :=
  ⟨⟨100, 100, none⟩, .point ⟨100, 100⟩, ⟨some 30, some 1250, none⟩⟩

end GhostCursor

namespace GhostCursor

lemma bezierPoint_zero (c : CubicBezier) : bezierPoint c 0 = c.P0 := by
  simp [bezierPoint]

lemma bezierPoint_one (c : CubicBezier) : bezierPoint c 1 = c.P3 := by
  simp [bezierPoint]

lemma getLUT_length (c : CubicBezier) (n : ℤ) : (getLUT c n).length = n.toNat + 1 := by
  unfold getLUT
  rw [List.length_map, List.length_range]

lemma getLUT_ne_nil (c : CubicBezier) (n : ℤ) : getLUT c n ≠ [] := by
  intro h
  have := getLUT_length c n
  rw [h] at this
  simp at this

lemma getLUT_head? (c : CubicBezier) (n : ℤ) : (getLUT c n).head? = some c.P0 := by
  unfold getLUT
  rw [List.head?_map]
  have h0 : (List.range (n.toNat + 1)).head? = some 0 := by
    rw [List.range_succ_eq_map]
    rfl
  rw [h0]
  simp only [Option.map_some']
  norm_num [bezierPoint_zero]

lemma getLUT_getLast?_of_pos (c : CubicBezier) (n : ℤ) (h : 1 ≤ n) :
    (getLUT c n).getLast? = some c.P3 := by
  unfold getLUT
  rw [List.getLast?_map]
  have hrange : (List.range (n.toNat + 1)).getLast? = some n.toNat := by
    rw [← Nat.succ_eq_add_one, List.range_succ, List.getLast?_concat]
  rw [hrange]
  simp only [Option.map_some']
  have hn : ((n.toNat : ℚ)) = (n : ℚ) := by
    norm_cast
    exact Int.toNat_of_nonneg (le_trans zero_le_one h)
  have hne : (n : ℚ) ≠ 0 := by
    have hp : (0 : ℚ) < (n : ℚ) := by exact_mod_cast lt_of_lt_of_le zero_lt_one h
    exact ne_of_gt hp
  rw [hn, div_self hne, bezierPoint_one]

lemma getLUT_getLast?_of_nonpos (c : CubicBezier) (n : ℤ) (h : n ≤ 0) :
    (getLUT c n).getLast? = some c.P0 := by
  unfold getLUT
  have h0 : n.toNat = 0 := Int.toNat_of_nonpos h
  rw [h0]
  simp [List.range_succ_eq_map, bezierPoint_zero]

lemma map_range_getD {α : Type} (l : List α) (d : α) :
    (List.range l.length).map (fun i => l.getD i d) = l := by
  induction l with
  | nil => simp
  | cons a l ih =>
    rw [List.length_cons, List.range_succ_eq_map, List.map_cons, List.map_map]
    simp only [List.getD_cons_zero, Function.comp_def, List.getD_cons_succ]
    rw [ih]

end GhostCursor

namespace GhostCursor

lemma generateTimestamps_length (env : MathEnv) (rTs : ℚ) (now : ℤ) (vs : List Vec)
    (opts : MovementOptions) : (generateTimestamps env rTs now vs opts).length = vs.length := by
  unfold generateTimestamps
  rw [List.length_map, List.length_range]

lemma clampPositive_length (env : MathEnv) (rTs : ℚ) (now : ℤ) (vs : List Vec)
    (opts : MovementOptions) : (clampPositive env rTs now vs opts).length = vs.length := by
  unfold clampPositive
  split
  · rw [generateTimestamps_length, List.length_map]
  · rw [List.length_map, List.length_map]

lemma generateTimestamps_map_toVec (env : MathEnv) (rTs : ℚ) (now : ℤ) (vs : List Vec)
    (opts : MovementOptions) :
    (generateTimestamps env rTs now vs opts).map PVec.toVec = vs := by
  unfold generateTimestamps
  rw [List.map_map]
  have h : (PVec.toVec ∘ fun i =>
      (⟨(vs.getD i ⟨0, 0⟩).x, (vs.getD i ⟨0, 0⟩).y,
        some (now + ((List.range i).map fun j =>
          elapsedTime env (tsSpeed opts rTs) vs (j + 1)).sum)⟩ : PVec))
      = fun i => vs.getD i ⟨0, 0⟩ := by
    funext i
    rfl
  rw [h, map_range_getD]

lemma clampPositive_map_toVec (env : MathEnv) (rTs : ℚ) (now : ℤ) (vs : List Vec)
    (opts : MovementOptions) :
    (clampPositive env rTs now vs opts).map PVec.toVec = vs.map clampVec := by
  unfold clampPositive
  split
  · rw [generateTimestamps_map_toVec]
  · rw [List.map_map]
    have hcomp : (PVec.toVec ∘ fun v : Vec => (⟨v.x, v.y, none⟩ : PVec)) = fun v : Vec => v := by
      funext v
      rfl
    rw [hcomp]
    simp

lemma generateTimestamps_getElem? (env : MathEnv) (rTs : ℚ) (now : ℤ) (vs : List Vec)
    (opts : MovementOptions) (i : ℕ) (h : i < vs.length) :
    (generateTimestamps env rTs now vs opts)[i]? =
      some ⟨(vs.getD i ⟨0, 0⟩).x, (vs.getD i ⟨0, 0⟩).y,
        some (now + ((List.range i).map fun j =>
          elapsedTime env (tsSpeed opts rTs) vs (j + 1)).sum)⟩ := by
  unfold generateTimestamps
  rw [List.getElem?_map, List.getElem?_range h]
  rfl

lemma bezierCurveSpeed_nonneg (env : MathEnv) (hS : ∀ q, 0 ≤ q → 0 ≤ env.Sqrt q)
    (t : ℚ) (P0 P1 P2 P3 : Vec) : 0 ≤ bezierCurveSpeed env t P0 P1 P2 P3 := by
  unfold bezierCurveSpeed
  exact hS _ (by positivity)

lemma timeToMove_nonneg (env : MathEnv) (speed : ℚ) (hS : ∀ q, 0 ≤ q → 0 ≤ env.Sqrt q)
    (hsp : 0 < speed) (P0 P1 P2 P3 : Vec) (samples : ℕ) :
    0 ≤ timeToMove env speed P0 P1 P2 P3 samples := by
  unfold timeToMove jsRound
  have hdt : (0 : ℚ) ≤ 1 / (samples : ℚ) :=
    div_nonneg (by norm_num) (by positivity)
  have htot : (0 : ℚ) ≤ ((List.range samples).map fun (k : ℕ) =>
      (bezierCurveSpeed env ((k : ℚ) * (1 / (samples : ℚ)) * (1 / (samples : ℚ))) P0 P1 P2 P3
        + bezierCurveSpeed env ((k : ℚ) * (1 / (samples : ℚ))) P0 P1 P2 P3)
        * (1 / (samples : ℚ)) / 2).sum := by
    apply List.sum_nonneg
    intro x hx
    simp only [List.mem_map] at hx
    obtain ⟨k, _, rfl⟩ := hx
    have h1 := bezierCurveSpeed_nonneg env hS ((k : ℚ) * (1 / (samples : ℚ)) * (1 / (samples : ℚ))) P0 P1 P2 P3
    have h2 := bezierCurveSpeed_nonneg env hS ((k : ℚ) * (1 / (samples : ℚ))) P0 P1 P2 P3
    have hmul : (0 : ℚ) ≤ (bezierCurveSpeed env ((k : ℚ) * (1 / (samples : ℚ)) * (1 / (samples : ℚ))) P0 P1 P2 P3
        + bezierCurveSpeed env ((k : ℚ) * (1 / (samples : ℚ))) P0 P1 P2 P3) * (1 / (samples : ℚ)) :=
      mul_nonneg (by linarith) hdt
    linarith
  have hq : (0 : ℚ) ≤ (((List.range samples).map fun (k : ℕ) =>
      (bezierCurveSpeed env ((k : ℚ) * (1 / (samples : ℚ)) * (1 / (samples : ℚ))) P0 P1 P2 P3
        + bezierCurveSpeed env ((k : ℚ) * (1 / (samples : ℚ))) P0 P1 P2 P3)
        * (1 / (samples : ℚ)) / 2).sum) / speed :=
    div_nonneg htot (le_of_lt hsp)
  exact Int.le_floor.mpr (by push_cast; linarith)

lemma elapsedTime_nonneg (env : MathEnv) (speed : ℚ) (hS : ∀ q, 0 ≤ q → 0 ≤ env.Sqrt q)
    (hsp : 0 < speed) (vs : List Vec) (i : ℕ) : 0 ≤ elapsedTime env speed vs i := by
  unfold elapsedTime
  exact timeToMove_nonneg env speed hS hsp _ _ _ _ _

end GhostCursor

namespace GhostCursor

/-- The non-decreasing-timestamp relation between consecutive trace points. -/
def tsLE (a b : PVec) : Prop := a.timestamp.getD 0 ≤ b.timestamp.getD 0

instance (a b : PVec) : Decidable (tsLE a b) := by
  unfold tsLE
  infer_instance

lemma chain'_of_total {α : Type} (r : α → α → Prop) (hr : ∀ a b, r a b) :
    ∀ l : List α, List.Chain' r l := by
  intro l
  induction l with
  | nil => exact List.chain'_nil
  | cons a t ih =>
    cases t with
    | nil => exact List.chain'_singleton a
    | cons b t2 => exact (List.chain'_cons).mpr ⟨hr a b, ih⟩

lemma generateTimestamps_chain' (env : MathEnv) (rTs : ℚ) (now : ℤ) (vs : List Vec)
    (opts : MovementOptions)
    (hel : ∀ i, 0 ≤ elapsedTime env (tsSpeed opts rTs) vs i) :
    List.Chain' tsLE (generateTimestamps env rTs now vs opts) := by
  unfold generateTimestamps
  rw [List.chain'_map]
  cases hlen : vs.length with
  | zero => simp
  | succ n =>
    rw [List.chain'_range_succ]
    intro m _
    show tsLE _ _
    unfold tsLE
    simp only [Option.getD_some]
    have hsum : ((List.range (m + 1)).map fun j =>
        elapsedTime env (tsSpeed opts rTs) vs (j + 1)).sum
        = ((List.range m).map fun j => elapsedTime env (tsSpeed opts rTs) vs (j + 1)).sum
          + elapsedTime env (tsSpeed opts rTs) vs (m + 1) := by
      rw [← Nat.succ_eq_add_one, List.range_succ, List.map_append, List.sum_append]
      simp
    rw [hsum]
    have := hel (m + 1)
    omega

lemma clampPositive_chain' (env : MathEnv) (rTs : ℚ) (now : ℤ) (vs : List Vec)
    (opts : MovementOptions) (hS : ∀ q, 0 ≤ q → 0 ≤ env.Sqrt q)
    (hsp : 0 < tsSpeed opts rTs) :
    List.Chain' tsLE (clampPositive env rTs now vs opts) := by
  unfold clampPositive
  split
  · exact generateTimestamps_chain' env rTs now _ opts
      (fun i => elapsedTime_nonneg env _ hS hsp _ i)
  · rw [List.chain'_map]
    exact chain'_of_total _ (fun a b => by unfold tsLE; simp) _


lemma generate_vectors (env : MathEnv) (rng : RandomDraws) (now : ℤ) (ctx : MovementContext) :
    (BezierMovementAlgorithm.generate env rng now ctx).vectors
      = clampPositive env rng.rTs now
          (getLUT (traceCurve env rng ctx) (traceSteps env rng ctx)) ctx.options := rfl

lemma generate_metrics_duration (env : MathEnv) (rng : RandomDraws) (now : ℤ)
    (ctx : MovementContext) :
    (BezierMovementAlgorithm.generate env rng now ctx).metrics.duration
      = computeDuration (BezierMovementAlgorithm.generate env rng now ctx).vectors := rfl

lemma clampPositive_ne_nil (env : MathEnv) (rTs : ℚ) (now : ℤ) (vs : List Vec)
    (opts : MovementOptions) (hne : vs ≠ []) :
    clampPositive env rTs now vs opts ≠ [] := by
  intro h
  have hl := clampPositive_length env rTs now vs opts
  rw [h] at hl
  exact hne (List.eq_nil_of_length_eq_zero hl.symm)

lemma computeDuration_eq (l : List PVec) (hne : l ≠ []) (t0 : ℤ)
    (h0 : (l.head hne).timestamp = some t0) :
    computeDuration l = some ((l.getLast hne).timestamp.getD 0 - t0) := by
  cases l with
  | nil => exact absurd rfl hne
  | cons a t =>
    have ha : a.timestamp = some t0 := by simpa using h0
    simp [computeDuration, ha]

lemma generateTimestamps_head_ts (env : MathEnv) (rTs : ℚ) (now : ℤ) (vs : List Vec)
    (opts : MovementOptions) (hne : generateTimestamps env rTs now vs opts ≠ []) :
    ((generateTimestamps env rTs now vs opts).head hne).timestamp = some now := by
  have hlen : vs.length ≠ 0 := by
    intro h0
    apply hne
    have := generateTimestamps_length env rTs now vs opts
    rw [h0] at this
    exact List.eq_nil_of_length_eq_zero this
  obtain ⟨m, hm⟩ := Nat.exists_eq_succ_of_ne_zero hlen
  have hheadq : (generateTimestamps env rTs now vs opts).head? =
      some ⟨(vs.getD 0 ⟨0, 0⟩).x, (vs.getD 0 ⟨0, 0⟩).y, some now⟩ := by
    unfold generateTimestamps
    rw [List.head?_map, hm]
    have h0 : (List.range (m + 1)).head? = some 0 := by
      rw [List.range_succ_eq_map]
      rfl
    rw [h0, Option.map_some']
    simp
  rw [List.head?_eq_head hne] at hheadq
  have := Option.some.inj hheadq
  rw [this]

lemma clampPositive_head_ts (env : MathEnv) (rTs : ℚ) (now : ℤ) (vs : List Vec)
    (opts : MovementOptions) (hts : opts.useTimestamps = some true)
    (hne : clampPositive env rTs now vs opts ≠ []) :
    ((clampPositive env rTs now vs opts).head hne).timestamp = some now := by
  revert hne
  unfold clampPositive
  rw [if_pos hts]
  intro hne
  exact generateTimestamps_head_ts env rTs now _ opts hne

lemma clampPositive_duration_none (env : MathEnv) (rTs : ℚ) (now : ℤ) (vs : List Vec)
    (opts : MovementOptions) (hts : opts.useTimestamps ≠ some true) :
    computeDuration (clampPositive env rTs now vs opts) = none := by
  unfold clampPositive
  rw [if_neg hts]
  cases vs with
  | nil => rfl
  | cons a t => rfl

lemma curveLength_nonneg (env : MathEnv) (hS : ∀ q, 0 ≤ q → 0 ≤ env.Sqrt q)
    (c : CubicBezier) : 0 ≤ curveLength env c := by
  unfold curveLength
  apply List.sum_nonneg
  intro x hx
  simp only [List.mem_map] at hx
  obtain ⟨k, _, rfl⟩ := hx
  unfold magnitude
  exact hS _ (by positivity)

lemma traceLength_nonneg (env : MathEnv) (hS : ∀ q, 0 ≤ q → 0 ≤ env.Sqrt q)
    (rng : RandomDraws) (ctx : MovementContext) : 0 ≤ traceLength env rng ctx := by
  unfold traceLength
  have := curveLength_nonneg env hS (traceCurve env rng ctx)
  positivity

lemma stepCount_pos (env : MathEnv) (length width speed : ℚ)
    (hL : ∀ q, 1 ≤ q → 0 ≤ env.Log2 q) (hlen : 0 ≤ length) (hw : 0 < width)
    (hsp : 0 < speed) : 1 ≤ stepCount env length width speed := by
  unfold stepCount
  have hdiv : 0 ≤ length / width := div_nonneg hlen (le_of_lt hw)
  have hfit : 0 ≤ fitts env length width := by
    unfold fitts
    have := hL (length / width + 1) (by linarith)
    linarith
  have hlog : 0 ≤ env.Log2 (fitts env length width + 1) := hL _ (by linarith)
  have harg : 0 < (env.Log2 (fitts env length width + 1) + speed * MIN_STEPS) * 3 := by
    have : 0 < speed * MIN_STEPS := by
      unfold MIN_STEPS
      positivity
    nlinarith
  exact Int.ceil_pos.mpr harg

end GhostCursor

namespace GhostCursor

lemma traceCurve_P0 (env : MathEnv) (rng : RandomDraws) (ctx : MovementContext) :
    (traceCurve env rng ctx).P0 = ctx.start.toVec := rfl

lemma traceCurve_P3 (env : MathEnv) (rng : RandomDraws) (ctx : MovementContext) :
    (traceCurve env rng ctx).P3 = toVector ctx.dest := rfl

lemma generate_vectors_length (env : MathEnv) (rng : RandomDraws) (now : ℤ)
    (ctx : MovementContext) :
    (BezierMovementAlgorithm.generate env rng now ctx).vectors.length
      = (traceSteps env rng ctx).toNat + 1 := by
  rw [generate_vectors, clampPositive_length, getLUT_length]

lemma generate_ne_nil (env : MathEnv) (rng : RandomDraws) (now : ℤ)
    (ctx : MovementContext) :
    (BezierMovementAlgorithm.generate env rng now ctx).vectors ≠ [] := by
  intro h
  have hl := generate_vectors_length env rng now ctx
  rw [h] at hl
  simp at hl

lemma generate_map_toVec (env : MathEnv) (rng : RandomDraws) (now : ℤ)
    (ctx : MovementContext) :
    (BezierMovementAlgorithm.generate env rng now ctx).vectors.map PVec.toVec
      = (getLUT (traceCurve env rng ctx) (traceSteps env rng ctx)).map clampVec := by
  rw [generate_vectors, clampPositive_map_toVec]

lemma generate_head_toVec (env : MathEnv) (rng : RandomDraws) (now : ℤ)
    (ctx : MovementContext) :
    ((BezierMovementAlgorithm.generate env rng now ctx).vectors.head?).map PVec.toVec
      = some (clampVec ctx.start.toVec) := by
  have h2 : ((BezierMovementAlgorithm.generate env rng now ctx).vectors.map PVec.toVec).head?
      = ((getLUT (traceCurve env rng ctx) (traceSteps env rng ctx)).map clampVec).head? := by
    rw [generate_map_toVec]
  rw [List.head?_map, List.head?_map, getLUT_head?, Option.map_some', traceCurve_P0] at h2
  exact h2

lemma generate_getLast_toVec_of_pos (env : MathEnv) (rng : RandomDraws) (now : ℤ)
    (ctx : MovementContext) (h : 1 ≤ traceSteps env rng ctx) :
    ((BezierMovementAlgorithm.generate env rng now ctx).vectors.getLast?).map PVec.toVec
      = some (clampVec (toVector ctx.dest)) := by
  have h2 : ((BezierMovementAlgorithm.generate env rng now ctx).vectors.map PVec.toVec).getLast?
      = ((getLUT (traceCurve env rng ctx) (traceSteps env rng ctx)).map clampVec).getLast? := by
    rw [generate_map_toVec]
  rw [List.getLast?_map, List.getLast?_map, getLUT_getLast?_of_pos _ _ h, Option.map_some',
    traceCurve_P3] at h2
  exact h2

lemma generate_getLast_toVec_of_nonpos (env : MathEnv) (rng : RandomDraws) (now : ℤ)
    (ctx : MovementContext) (h : traceSteps env rng ctx ≤ 0) :
    ((BezierMovementAlgorithm.generate env rng now ctx).vectors.getLast?).map PVec.toVec
      = some (clampVec ctx.start.toVec) := by
  have h2 : ((BezierMovementAlgorithm.generate env rng now ctx).vectors.map PVec.toVec).getLast?
      = ((getLUT (traceCurve env rng ctx) (traceSteps env rng ctx)).map clampVec).getLast? := by
    rw [generate_map_toVec]
  rw [List.getLast?_map, List.getLast?_map, getLUT_getLast?_of_nonpos _ _ h, Option.map_some',
    traceCurve_P0] at h2
  exact h2

lemma traceSteps_pos (env : MathEnv) (rng : RandomDraws) (ctx : MovementContext)
    (hL : ∀ q, 1 ≤ q → 0 ≤ env.Log2 q) (hS : ∀ q, 0 ≤ q → 0 ≤ env.Sqrt q)
    (hw : 0 < resolveWidth ctx.dest) (hsp : 0 < speedFactor ctx.options rng.rSpeed) :
    1 ≤ traceSteps env rng ctx :=
  stepCount_pos env _ _ _ hL (traceLength_nonneg env hS rng ctx) hw hsp

end GhostCursor


namespace GhostCursor

lemma range_one : List.range 1 = [0] := rfl

lemma range_two : List.range 2 = [0, 1] := rfl

lemma range_three : List.range 3 = [0, 1, 2] := rfl

lemma range_ten : List.range 10 = [0, 1, 2, 3, 4, 5, 6, 7, 8, 9] := rfl

lemma curveA : traceCurve zeroSqrtEnv zeroDraws ctxA
    = ⟨⟨-50, -25⟩, ⟨-40, -25⟩, ⟨-20, -15⟩, ⟨10, 5⟩⟩ := by
  norm_num [traceCurve, bezierCurve, ctxA, zeroDraws, PVec.toVec, toVector]

lemma lengthA : traceLength zeroSqrtEnv zeroDraws ctxA = 0 := by
  unfold traceLength
  rw [curveA]
  norm_num [curveLength, magnitude, zeroSqrtEnv, range_ten]

lemma stepsA : traceSteps zeroSqrtEnv zeroDraws ctxA = 2 := by
  unfold traceSteps
  rw [lengthA]
  have h : stepCount zeroSqrtEnv 0 (resolveWidth ctxA.dest)
      (speedFactor ctxA.options zeroDraws.rSpeed) = ⌈(3 : ℚ) / 2⌉ := by
    norm_num [stepCount, fitts, speedFactor, zeroSqrtEnv, ctxA, MIN_STEPS, resolveWidth,
      DEFAULT_WIDTH]
  rw [h, Int.ceil_eq_iff]
  norm_num

lemma lutA : getLUT ⟨⟨-50, -25⟩, ⟨-40, -25⟩, ⟨-20, -15⟩, ⟨10, 5⟩⟩ 2
    = [⟨-50, -25⟩, ⟨-55/2, -35/2⟩, ⟨10, 5⟩] := by
  unfold getLUT
  rw [show ((2 : ℤ).toNat + 1) = 3 from rfl, range_three]
  norm_num [bezierPoint]

lemma vectorsA : (BezierMovementAlgorithm.generate zeroSqrtEnv zeroDraws 0 ctxA).vectors
    = [⟨0, 0, none⟩, ⟨0, 0, none⟩, ⟨10, 5, none⟩] := by
  rw [generate_vectors, stepsA, curveA, lutA]
  unfold clampPositive
  rw [if_neg (by simp [ctxA])]
  norm_num [clampVec, max_def]

lemma curveB : traceCurve qEnv zeroDraws ctxB
    = ⟨⟨-50, -25⟩, ⟨-30, -15⟩, ⟨-10, -5⟩, ⟨10, 5⟩⟩ := by
  norm_num [traceCurve, bezierCurve, ctxB, zeroDraws, PVec.toVec, toVector]

lemma lengthB : traceLength qEnv zeroDraws ctxB = 360 := by
  unfold traceLength
  rw [curveB]
  norm_num [curveLength, magnitude, qEnv, range_ten, direction, bezierPoint]

lemma stepsB : traceSteps qEnv zeroDraws ctxB = 1 := by
  unfold traceSteps
  rw [lengthB]
  have h : stepCount qEnv 360 (resolveWidth ctxB.dest)
      (speedFactor ctxB.options zeroDraws.rSpeed) = ⌈(19569 : ℚ) / 25000⌉ := by
    norm_num [stepCount, fitts, speedFactor, qEnv, ctxB, MIN_STEPS, resolveWidth, DEFAULT_WIDTH]
  rw [h, Int.ceil_eq_iff]
  norm_num

lemma lutB : getLUT ⟨⟨-50, -25⟩, ⟨-30, -15⟩, ⟨-10, -5⟩, ⟨10, 5⟩⟩ 1
    = [⟨-50, -25⟩, ⟨10, 5⟩] := by
  unfold getLUT
  rw [show ((1 : ℤ).toNat + 1) = 2 from rfl, range_two]
  norm_num [bezierPoint]

lemma vectorsB : (BezierMovementAlgorithm.generate qEnv zeroDraws 0 ctxB).vectors
    = [⟨0, 0, none⟩, ⟨10, 5, none⟩] := by
  rw [generate_vectors, stepsB, curveB, lutB]
  unfold clampPositive
  rw [if_neg (by simp [ctxB])]
  norm_num [clampVec, max_def]

end GhostCursor

namespace GhostCursor

lemma curveC : traceCurve qEnv zeroDraws ctxC
    = ⟨⟨0, 0⟩, ⟨100/3, 0⟩, ⟨200/3, 0⟩, ⟨100, 0⟩⟩ := by
  norm_num [traceCurve, bezierCurve, ctxC, zeroDraws, PVec.toVec, toVector]

lemma curveD : traceCurve qEnv zeroDraws ctxD
    = ⟨⟨0, 0⟩, ⟨100/3, 0⟩, ⟨200/3, 0⟩, ⟨100, 0⟩⟩ := by
  norm_num [traceCurve, bezierCurve, ctxD, zeroDraws, PVec.toVec, toVector]

lemma lengthC : traceLength qEnv zeroDraws ctxC = 800 := by
  unfold traceLength
  rw [curveC]
  norm_num [curveLength, magnitude, qEnv, range_ten, direction, bezierPoint]

lemma lengthD : traceLength qEnv zeroDraws ctxD = 800 := by
  unfold traceLength
  rw [curveD]
  norm_num [curveLength, magnitude, qEnv, range_ten, direction, bezierPoint]

lemma stepsC : traceSteps qEnv zeroDraws ctxC = 1 := by
  unfold traceSteps
  rw [lengthC]
  have h : stepCount qEnv 800 (resolveWidth ctxC.dest)
      (speedFactor ctxC.options zeroDraws.rSpeed) = ⌈(177 : ℚ) / 5000⌉ := by
    norm_num [stepCount, fitts, speedFactor, qEnv, ctxC, zeroDraws, MIN_STEPS, resolveWidth,
      DEFAULT_WIDTH]
  rw [h, Int.ceil_eq_iff]
  norm_num

lemma stepsD : traceSteps qEnv zeroDraws ctxD = 1 := by
  unfold traceSteps
  rw [lengthD]
  have h : stepCount qEnv 800 (resolveWidth ctxD.dest)
      (speedFactor ctxD.options zeroDraws.rSpeed) = ⌈(3927 : ℚ) / 5000⌉ := by
    norm_num [stepCount, fitts, speedFactor, qEnv, ctxD, zeroDraws, MIN_STEPS, resolveWidth,
      DEFAULT_WIDTH]
  rw [h, Int.ceil_eq_iff]
  norm_num

lemma lutC : getLUT ⟨⟨0, 0⟩, ⟨100/3, 0⟩, ⟨200/3, 0⟩, ⟨100, 0⟩⟩ 1 = [⟨0, 0⟩, ⟨100, 0⟩] := by
  unfold getLUT
  rw [show ((1 : ℤ).toNat + 1) = 2 from rfl, range_two]
  norm_num [bezierPoint]

lemma clampedCD : ([(⟨0, 0⟩ : Vec), ⟨100, 0⟩]).map clampVec = [⟨0, 0⟩, ⟨100, 0⟩] := by
  norm_num [clampVec, max_def]

lemma elapsedNeg : elapsedTime qEnv (-1) [⟨0, 0⟩, ⟨100, 0⟩] 1 = -90000 := by
  unfold elapsedTime tsWindow timeToMove
  norm_num [bezierCurveSpeed, extrapolate, qEnv, range_two, jsRound]

end GhostCursor

namespace GhostCursor

lemma elapsed2500 : elapsedTime qEnv 2500 [⟨0, 0⟩, ⟨100, 0⟩] 1 = 36 := by
  unfold elapsedTime tsWindow timeToMove
  norm_num [bezierCurveSpeed, extrapolate, qEnv, range_two, jsRound]

lemma elapsed100 : elapsedTime qEnv (1/100) [⟨0, 0⟩, ⟨100, 0⟩] 1 = 9000000 := by
  unfold elapsedTime tsWindow timeToMove
  norm_num [bezierCurveSpeed, extrapolate, qEnv, range_two, jsRound]

lemma tsSpeedC : tsSpeed ctxC.options zeroDraws.rTs = -1 := rfl

lemma tsSpeedD : tsSpeed ctxD.options zeroDraws.rTs = 2500 := rfl

lemma vectorsC : (BezierMovementAlgorithm.generate qEnv zeroDraws 0 ctxC).vectors
    = [⟨0, 0, some 0⟩, ⟨100, 0, some (-90000)⟩] := by
  rw [generate_vectors, stepsC, curveC, lutC]
  unfold clampPositive
  rw [if_pos (show ctxC.options.useTimestamps = some true from rfl), clampedCD]
  unfold generateTimestamps
  rw [tsSpeedC]
  norm_num [range_two, range_one, elapsedNeg]

lemma vectorsD : (BezierMovementAlgorithm.generate qEnv zeroDraws 0 ctxD).vectors
    = [⟨0, 0, some 0⟩, ⟨100, 0, some 36⟩] := by
  rw [generate_vectors, stepsD, curveD, lutC]
  unfold clampPositive
  rw [if_pos (show ctxD.options.useTimestamps = some true from rfl), clampedCD]
  unfold generateTimestamps
  rw [tsSpeedD]
  norm_num [range_two, range_one, elapsed2500]

lemma clampedSamplesD : clampedSamples qEnv zeroDraws ctxD = [⟨0, 0⟩, ⟨100, 0⟩] := by
  unfold clampedSamples
  rw [stepsD, curveD, lutC, clampedCD]

lemma curveE : traceCurve zeroSqrtEnv zeroDraws ctxE
    = ⟨⟨100, 100⟩, ⟨70, 70⟩, ⟨70, 70⟩, ⟨100, 100⟩⟩ := by
  norm_num [traceCurve, bezierCurve, ctxE, zeroDraws, PVec.toVec, toVector]

lemma lengthE : traceLength zeroSqrtEnv zeroDraws ctxE = 0 := by
  unfold traceLength
  rw [curveE]
  norm_num [curveLength, magnitude, zeroSqrtEnv, range_ten]

lemma stepsE : traceSteps zeroSqrtEnv zeroDraws ctxE = 2 := by
  unfold traceSteps
  rw [lengthE]
  have h : stepCount zeroSqrtEnv 0 (resolveWidth ctxE.dest)
      (speedFactor ctxE.options zeroDraws.rSpeed) = ⌈(3 : ℚ) / 2⌉ := by
    norm_num [stepCount, fitts, speedFactor, zeroSqrtEnv, ctxE, zeroDraws, MIN_STEPS,
      resolveWidth, DEFAULT_WIDTH]
  rw [h, Int.ceil_eq_iff]
  norm_num

lemma lutE : getLUT ⟨⟨100, 100⟩, ⟨70, 70⟩, ⟨70, 70⟩, ⟨100, 100⟩⟩ 2
    = [⟨100, 100⟩, ⟨155/2, 155/2⟩, ⟨100, 100⟩] := by
  unfold getLUT
  rw [show ((2 : ℤ).toNat + 1) = 3 from rfl, range_three]
  norm_num [bezierPoint]

lemma vectorsE : (BezierMovementAlgorithm.generate zeroSqrtEnv zeroDraws 0 ctxE).vectors
    = [⟨100, 100, none⟩, ⟨155/2, 155/2, none⟩, ⟨100, 100, none⟩] := by
  rw [generate_vectors, stepsE, curveE, lutE]
  unfold clampPositive
  rw [if_neg (by simp [ctxE])]
  norm_num [clampVec, max_def]

end GhostCursor

namespace GhostCursor

lemma stepCount_qm_w100 : stepCount qmEnv 100 100 1 = 76 := by
  have h : stepCount qmEnv 100 100 1 = ⌈(375003 : ℚ) / 5000⌉ := by
    norm_num [stepCount, fitts, qmEnv, MIN_STEPS]
  rw [h, Int.ceil_eq_iff]
  norm_num

lemma stepCount_qm_w99 : stepCount qmEnv 100 99 1 = 76 := by
  have h : stepCount qmEnv 100 99 1 = ⌈(371253 : ℚ) / 4950⌉ := by
    norm_num [stepCount, fitts, qmEnv, MIN_STEPS]
  rw [h, Int.ceil_eq_iff]
  norm_num

lemma stepCount_qm_l101 : stepCount qmEnv 101 100 1 = 76 := by
  have h : stepCount qmEnv 101 100 1 = ⌈(37500303 : ℚ) / 500000⌉ := by
    norm_num [stepCount, fitts, qmEnv, MIN_STEPS]
  rw [h, Int.ceil_eq_iff]
  norm_num

/-- C1 counterexample: for the request `ctxA`, whose start `(-50, -25)` has
negative coordinates, the first vector of the returned trace is the clamped
point `(0, 0)` and not the request's start point, so the claim fails as
stated for negative starts. -/
theorem c1_first_vector_equals_start_cex :
    (((BezierMovementAlgorithm.generate zeroSqrtEnv zeroDraws 0 ctxA).vectors.head?).map
        PVec.toVec = some ⟨0, 0⟩)
      ∧ ctxA.start.toVec = ⟨-50, -25⟩
      ∧ some (⟨0, 0⟩ : Vec) ≠ some (⟨-50, -25⟩ : Vec) := by
  refine ⟨by rw [vectorsA]; rfl, rfl, ?_⟩
  simp only [ne_eq, Option.some.injEq, Vec.mk.injEq, not_and]
  intro h
  norm_num at h

/-- C1 amended: for every request, the first vector of the trace is the
request's start clamped to nonnegative coordinates (hence equal to the start
exactly when the start is nonnegative), and — whenever the step count is at
least 1, which the stated log2/sqrt facts guarantee for a positive target
width and positive speed factor — the last vector is the resolved destination
clamped to nonnegative coordinates. -/
theorem c1_trace_endpoints_clamped (env : MathEnv) (rng : RandomDraws) (now : ℤ)
    (ctx : MovementContext)
    (hL : ∀ q, 1 ≤ q → 0 ≤ env.Log2 q) (hS : ∀ q, 0 ≤ q → 0 ≤ env.Sqrt q)
    (hw : 0 < resolveWidth ctx.dest) (hsp : 0 < speedFactor ctx.options rng.rSpeed) :
    ((BezierMovementAlgorithm.generate env rng now ctx).vectors.head?).map PVec.toVec
        = some (clampVec ctx.start.toVec)
      ∧ ((BezierMovementAlgorithm.generate env rng now ctx).vectors.getLast?).map PVec.toVec
        = some (clampVec (toVector ctx.dest)) :=
  ⟨generate_head_toVec env rng now ctx,
   generate_getLast_toVec_of_pos env rng now ctx (traceSteps_pos env rng ctx hL hS hw hsp)⟩

/-- C1 witness: the amended endpoint theorem applied to the concrete request
`ctxB`, whose start has negative coordinates. -/
theorem c1_trace_endpoints_clamped_witness :
    (∀ q : ℚ, 1 ≤ q → 0 ≤ qEnv.Log2 q) ∧ (∀ q : ℚ, 0 ≤ q → 0 ≤ qEnv.Sqrt q)
      ∧ 0 < resolveWidth ctxB.dest
      ∧ 0 < speedFactor ctxB.options zeroDraws.rSpeed
      ∧ (((BezierMovementAlgorithm.generate qEnv zeroDraws 0 ctxB).vectors.head?).map
            PVec.toVec = some (clampVec ctxB.start.toVec)
          ∧ ((BezierMovementAlgorithm.generate qEnv zeroDraws 0 ctxB).vectors.getLast?).map
            PVec.toVec = some (clampVec (toVector ctxB.dest))) :=
  ⟨fun q h => div_nonneg (by linarith) (by norm_num),
   fun _ h => h,
   by norm_num [resolveWidth, ctxB, DEFAULT_WIDTH],
   by norm_num [speedFactor, ctxB, zeroDraws],
   c1_trace_endpoints_clamped qEnv zeroDraws 0 ctxB
     (fun q h => div_nonneg (by linarith) (by norm_num)) (fun _ h => h)
     (by norm_num [resolveWidth, ctxB, DEFAULT_WIDTH])
     (by norm_num [speedFactor, ctxB, zeroDraws])⟩

/-- C3 counterexample: for the request `ctxA` the computed sampling step
count is 2, strictly below the minimum-resolution constant `MIN_STEPS = 25`,
and the trace has 3 vectors — no floor is applied to the step count. -/
theorem c3_step_floor_cex :
    traceSteps zeroSqrtEnv zeroDraws ctxA = 2
      ∧ ((2 : ℚ) < MIN_STEPS)
      ∧ (BezierMovementAlgorithm.generate zeroSqrtEnv zeroDraws 0 ctxA).vectors.length = 3 :=
  ⟨stepsA, by norm_num [MIN_STEPS], by rw [vectorsA]; rfl⟩

/-- C3 amended: every trace has `steps + 1` sampled vectors, where the
sampling parameter `steps` equals
`ceil((log2(0 + 2·log2(length/width + 1) + 1) + speedFactor · 25) · 3)` —
the Fitts-difficulty formula with base step constant 25 — but no minimum
floor is applied to it (it can be far below `MIN_STEPS`, as the
counterexample shows). -/
theorem c3_step_count_formula (env : MathEnv) (rng : RandomDraws) (now : ℤ)
    (ctx : MovementContext) :
    (BezierMovementAlgorithm.generate env rng now ctx).vectors.length
        = (traceSteps env rng ctx).toNat + 1
      ∧ traceSteps env rng ctx
        = ⌈(env.Log2 (0 + 2 * env.Log2 (traceLength env rng ctx / resolveWidth ctx.dest + 1) + 1)
            + speedFactor ctx.options rng.rSpeed * 25) * 3⌉ :=
  ⟨generate_vectors_length env rng now ctx, rfl⟩

/-- C7: every vector of every generated trace has nonnegative coordinates,
for all inputs including negative starting coordinates. -/
theorem c7_coords_nonneg (env : MathEnv) (rng : RandomDraws) (now : ℤ)
    (ctx : MovementContext) (v : PVec)
    (hv : v ∈ (BezierMovementAlgorithm.generate env rng now ctx).vectors) :
    0 ≤ v.x ∧ 0 ≤ v.y := by
  have h1 : PVec.toVec v ∈ (BezierMovementAlgorithm.generate env rng now ctx).vectors.map
      PVec.toVec := List.mem_map_of_mem _ hv
  rw [generate_map_toVec] at h1
  obtain ⟨w, _, hw⟩ := List.mem_map.mp h1
  have hx : v.x = max 0 w.x := by
    rw [show v.x = (PVec.toVec v).x from rfl, ← hw]
    rfl
  have hy : v.y = max 0 w.y := by
    rw [show v.y = (PVec.toVec v).y from rfl, ← hw]
    rfl
  rw [hx, hy]
  exact ⟨le_max_left 0 w.x, le_max_left 0 w.y⟩

/-- C7 witness: the invariant applied to a concrete vector of the trace for
`ctxB`, whose request starts at negative coordinates. -/
theorem c7_coords_nonneg_witness :
    ((⟨10, 5, none⟩ : PVec) ∈ (BezierMovementAlgorithm.generate qEnv zeroDraws 0 ctxB).vectors)
      ∧ (0 ≤ (⟨10, 5, none⟩ : PVec).x ∧ 0 ≤ (⟨10, 5, none⟩ : PVec).y) :=
  ⟨by rw [vectorsB]; simp,
   c7_coords_nonneg qEnv zeroDraws 0 ctxB ⟨10, 5, none⟩ (by rw [vectorsB]; simp)⟩

end GhostCursor

namespace GhostCursor

/-- C2 counterexample: for the request `ctxC`, which asks for timestamps with
the negative move speed `-1`, the generated timestamps are `0` followed by
`-90000`: a later timestamp is strictly smaller than its predecessor, so the
monotonicity claim fails as stated, even though the abstract square root used
by the run is nonnegative on nonnegative inputs. -/
theorem c2_timestamps_monotone_cex :
    (∀ q : ℚ, 0 ≤ q → 0 ≤ qEnv.Sqrt q)
      ∧ (BezierMovementAlgorithm.generate qEnv zeroDraws 0 ctxC).vectors.map PVec.timestamp
        = [some 0, some (-90000)]
      ∧ ¬ List.Chain' tsLE (BezierMovementAlgorithm.generate qEnv zeroDraws 0 ctxC).vectors := by
  refine ⟨fun _ h => h, by rw [vectorsC]; rfl, ?_⟩
  rw [vectorsC]
  intro hch
  have h := (List.chain'_cons.mp hch).1
  unfold tsLE at h
  simp only [Option.getD_some] at h
  omega

/-- C2 amended: whenever the timestamp divisor is positive — that is,
`moveSpeed`, when supplied, is positive (the random fallback lies in
`[0.5, 1)`) — and the square root is nonnegative on nonnegative inputs, the
timestamps of the trace are non-decreasing; whenever timestamps were
requested, `metrics.duration` is the last timestamp minus the first; and
whenever they were not requested, `metrics.duration` is null. -/
theorem c2_timestamps_monotone_amended (env : MathEnv) (rng : RandomDraws) (now : ℤ)
    (ctx : MovementContext)
    (hS : ∀ q, 0 ≤ q → 0 ≤ env.Sqrt q)
    (hsp : 0 < tsSpeed ctx.options rng.rTs) :
    List.Chain' tsLE (BezierMovementAlgorithm.generate env rng now ctx).vectors
      ∧ (∀ hne : (BezierMovementAlgorithm.generate env rng now ctx).vectors ≠ [],
          ctx.options.useTimestamps = some true →
            (BezierMovementAlgorithm.generate env rng now ctx).metrics.duration
              = some ((((BezierMovementAlgorithm.generate env rng now ctx).vectors.getLast
                    hne).timestamp.getD 0)
                  - (((BezierMovementAlgorithm.generate env rng now ctx).vectors.head
                    hne).timestamp.getD 0)))
      ∧ (ctx.options.useTimestamps ≠ some true →
          (BezierMovementAlgorithm.generate env rng now ctx).metrics.duration = none) := by
  refine ⟨?_, ?_, ?_⟩
  · rw [generate_vectors]
    exact clampPositive_chain' env rng.rTs now _ ctx.options hS hsp
  · intro hne hts
    have h0 : (((BezierMovementAlgorithm.generate env rng now ctx).vectors.head
        hne).timestamp) = some now :=
      clampPositive_head_ts env rng.rTs now _ ctx.options hts hne
    rw [generate_metrics_duration, computeDuration_eq _ hne now h0, h0]
    rfl
  · intro hts
    rw [generate_metrics_duration, generate_vectors]
    exact clampPositive_duration_none env rng.rTs now _ ctx.options hts

/-- C2 witness: the amended theorem applied to the concrete timestamped
request `ctxD` with positive move speed 2500. -/
theorem c2_timestamps_monotone_amended_witness :
    (∀ q : ℚ, 0 ≤ q → 0 ≤ qEnv.Sqrt q)
      ∧ 0 < tsSpeed ctxD.options zeroDraws.rTs
      ∧ (List.Chain' tsLE (BezierMovementAlgorithm.generate qEnv zeroDraws 0 ctxD).vectors
          ∧ (∀ hne : (BezierMovementAlgorithm.generate qEnv zeroDraws 0 ctxD).vectors ≠ [],
              ctxD.options.useTimestamps = some true →
                (BezierMovementAlgorithm.generate qEnv zeroDraws 0 ctxD).metrics.duration
                  = some ((((BezierMovementAlgorithm.generate qEnv zeroDraws 0
                        ctxD).vectors.getLast hne).timestamp.getD 0)
                      - (((BezierMovementAlgorithm.generate qEnv zeroDraws 0
                        ctxD).vectors.head hne).timestamp.getD 0)))
          ∧ (ctxD.options.useTimestamps ≠ some true →
              (BezierMovementAlgorithm.generate qEnv zeroDraws 0 ctxD).metrics.duration
                = none)) :=
  ⟨fun _ h => h, by rw [tsSpeedD]; norm_num,
   c2_timestamps_monotone_amended qEnv zeroDraws 0 ctxD (fun _ h => h)
     (by rw [tsSpeedD]; norm_num)⟩

/-- C4 counterexample: for the timestamped request `ctxD`, the step-count
speed factor is `25 / 2500 = 1/100` while the divisor used by timestamp
generation is `2500` (the raw move speed); the actual elapsed time between
the two vectors is 36 ms, whereas dividing the same integrated curve speed by
the step-count speed factor would give 9000000 ms — so one shared speed
factor is not used. -/
theorem c4_single_speed_factor_cex :
    (BezierMovementAlgorithm.generate qEnv zeroDraws 0 ctxD).vectors.map PVec.timestamp
        = [some 0, some 36]
      ∧ speedFactor ctxD.options zeroDraws.rSpeed = 1 / 100
      ∧ tsSpeed ctxD.options zeroDraws.rTs = 2500
      ∧ elapsedTime qEnv (speedFactor ctxD.options zeroDraws.rSpeed)
          (clampedSamples qEnv zeroDraws ctxD) 1 = 9000000
      ∧ ((36 : ℤ) - 0 ≠ 9000000)
      ∧ ((2500 : ℚ) ≠ 1 / 100) := by
  refine ⟨by rw [vectorsD]; rfl, ?_, tsSpeedD, ?_, by omega, by norm_num⟩
  · norm_num [speedFactor, ctxD, zeroDraws]
  · rw [clampedSamplesD,
      show speedFactor ctxD.options zeroDraws.rSpeed = 1 / 100 from by
        norm_num [speedFactor, ctxD, zeroDraws]]
    exact elapsed100

/-- C4 amended: the elapsed milliseconds between consecutive vectors of a
timestamped trace equal `timeToMove` — the trapezoidally integrated window
curve speed divided by the timestamp divisor and rounded — where the divisor
is `moveSpeed` itself when supplied (otherwise a fresh draw mapped into
`[0.5, 1)`), a quantity resolved independently of the step-count speed
factor. -/
theorem c4_timestamp_cadence (env : MathEnv) (rng : RandomDraws) (now : ℤ)
    (ctx : MovementContext) (hts : ctx.options.useTimestamps = some true)
    (i : ℕ) (a b : PVec)
    (ha : (BezierMovementAlgorithm.generate env rng now ctx).vectors[i]? = some a)
    (hb : (BezierMovementAlgorithm.generate env rng now ctx).vectors[i + 1]? = some b) :
    b.timestamp.getD 0 - a.timestamp.getD 0
      = elapsedTime env (tsSpeed ctx.options rng.rTs) (clampedSamples env rng ctx) (i + 1) := by
  rw [generate_vectors] at ha hb
  unfold clampPositive at ha hb
  rw [if_pos hts] at ha hb
  have hlen_b : i + 1 < ((getLUT (traceCurve env rng ctx) (traceSteps env rng ctx)).map
      clampVec).length := by
    by_contra hcon
    rw [List.getElem?_eq_none_iff.mpr ?_] at hb
    · exact Option.noConfusion hb
    · rw [generateTimestamps_length]
      omega
  have hlen_a : i < ((getLUT (traceCurve env rng ctx) (traceSteps env rng ctx)).map
      clampVec).length := by omega
  rw [generateTimestamps_getElem? env rng.rTs now _ ctx.options i hlen_a] at ha
  rw [generateTimestamps_getElem? env rng.rTs now _ ctx.options (i + 1) hlen_b] at hb
  have ha2 := Option.some.inj ha
  have hb2 := Option.some.inj hb
  rw [← ha2, ← hb2]
  simp only [Option.getD_some]
  have hsum : ((List.range (i + 1)).map fun j =>
      elapsedTime env (tsSpeed ctx.options rng.rTs)
        ((getLUT (traceCurve env rng ctx) (traceSteps env rng ctx)).map clampVec) (j + 1)).sum
      = ((List.range i).map fun j =>
          elapsedTime env (tsSpeed ctx.options rng.rTs)
            ((getLUT (traceCurve env rng ctx) (traceSteps env rng ctx)).map clampVec)
            (j + 1)).sum
        + elapsedTime env (tsSpeed ctx.options rng.rTs)
            ((getLUT (traceCurve env rng ctx) (traceSteps env rng ctx)).map clampVec)
            (i + 1) := by
    rw [← Nat.succ_eq_add_one, List.range_succ, List.map_append, List.sum_append]
    simp
  rw [hsum]
  unfold clampedSamples
  omega

/-- C4 witness: the cadence theorem applied to the concrete timestamped
request `ctxD` at the trace's only consecutive pair. -/
theorem c4_timestamp_cadence_witness :
    ctxD.options.useTimestamps = some true
      ∧ (BezierMovementAlgorithm.generate qEnv zeroDraws 0 ctxD).vectors[0]?
          = some ⟨0, 0, some 0⟩
      ∧ (BezierMovementAlgorithm.generate qEnv zeroDraws 0 ctxD).vectors[0 + 1]?
          = some ⟨100, 0, some 36⟩
      ∧ ((⟨100, 0, some 36⟩ : PVec).timestamp.getD 0
            - (⟨0, 0, some 0⟩ : PVec).timestamp.getD 0
          = elapsedTime qEnv (tsSpeed ctxD.options zeroDraws.rTs)
              (clampedSamples qEnv zeroDraws ctxD) (0 + 1)) :=
  ⟨rfl, by rw [vectorsD]; rfl, by rw [vectorsD]; rfl,
   c4_timestamp_cadence qEnv zeroDraws 0 ctxD rfl 0 ⟨0, 0, some 0⟩ ⟨100, 0, some 36⟩
     (by rw [vectorsD]; rfl) (by rw [vectorsD]; rfl)⟩

end GhostCursor

namespace GhostCursor

/-- C5 counterexample: an algorithm returning a trace with zero vectors is
forwarded unchanged to the caller of the facade — no error, no rejection. -/
theorem c5_facade_rejects_cex :
    MovementEngine.generate (fun _ => ⟨"empty", [], ⟨0, 0, 0, none⟩⟩) ⟨0, 0, none⟩
        (.point ⟨1, 1⟩) none
      = ⟨"empty", [], ⟨0, 0, 0, none⟩⟩
    ∧ (MovementEngine.generate (fun _ => ⟨"empty", [], ⟨0, 0, 0, none⟩⟩) ⟨0, 0, none⟩
        (.point ⟨1, 1⟩) none).vectors = [] :=
  ⟨rfl, rfl⟩

/-- C5 amended: the facade performs no contract validation at all; it returns
the algorithm's trace verbatim for the context it builds, its only processing
being option normalization (numeric overrides pass through, `useTimestamps`
defaults to `false`). -/
theorem c5_facade_forwards_verbatim (alg : MovementAlgorithm) (start : PVec) (dest : Dest)
    (options : Option MovementOptions) :
    MovementEngine.generate alg start dest options
        = alg ⟨start, dest, normalizeOptions options⟩
      ∧ (normalizeOptions options).spreadOverride = options.bind MovementOptions.spreadOverride
      ∧ (normalizeOptions options).moveSpeed = options.bind MovementOptions.moveSpeed
      ∧ (normalizeOptions options).useTimestamps
        = some ((options.bind MovementOptions.useTimestamps).getD false) :=
  ⟨rfl, rfl, rfl, rfl⟩

/-- C6 counterexample: for a strictly monotone `Log2` with `Log2 1 = 0`, the
step count at width 99 ties the step count at width 100 (same distance 100),
and the step count at distance 101 ties the one at distance 100 (same width):
a strictly narrower or strictly farther target does not always yield strictly
more steps. -/
theorem c6_strict_monotonicity_cex :
    StrictMono qmEnv.Log2 ∧ qmEnv.Log2 1 = 0
      ∧ ((99 : ℚ) < 100 ∧ stepCount qmEnv 100 99 1 = stepCount qmEnv 100 100 1)
      ∧ ((100 : ℚ) < 101 ∧ stepCount qmEnv 101 100 1 = stepCount qmEnv 100 100 1) := by
  refine ⟨?_, by norm_num [qmEnv], ⟨by norm_num, ?_⟩, ⟨by norm_num, ?_⟩⟩
  · intro a b h
    show (a - 1) / 100 < (b - 1) / 100
    exact (div_lt_div_iff_of_pos_right (by norm_num)).mpr (by linarith)
  · rw [stepCount_qm_w99, stepCount_qm_w100]
  · rw [stepCount_qm_l101, stepCount_qm_w100]

lemma stepCount_mono_core (env : MathEnv) (sp l w lp wp : ℚ) (hmono : Monotone env.Log2)
    (h : l / w ≤ lp / wp) : stepCount env l w sp ≤ stepCount env lp wp sp := by
  unfold stepCount fitts
  apply Int.ceil_le_ceil
  have h1 := hmono (show l / w + 1 ≤ lp / wp + 1 by linarith)
  have h2 := hmono (show 0 + 2 * env.Log2 (l / w + 1) + 1
      ≤ 0 + 2 * env.Log2 (lp / wp + 1) + 1 by linarith)
  linarith

/-- C6 amended: with the speed factor, start and draws held fixed and `Log2`
monotone, the step count is weakly monotone in difficulty: a narrower target
width (at equal distance) or a greater distance (at equal width) never yields
fewer steps — but, by the counterexample, not always strictly more. -/
theorem c6_step_monotonicity_weak (env : MathEnv) (sp l lp w wp : ℚ)
    (hmono : Monotone env.Log2) :
    (0 ≤ l → 0 < wp → wp ≤ w → stepCount env l w sp ≤ stepCount env l wp sp)
      ∧ (0 ≤ l → l ≤ lp → 0 < w → stepCount env l w sp ≤ stepCount env lp w sp) := by
  constructor
  · intro hl hwp hww
    have hw : 0 < w := lt_of_lt_of_le hwp hww
    apply stepCount_mono_core env sp l w l wp hmono
    rw [div_le_div_iff₀ hw hwp]
    exact mul_le_mul_of_nonneg_left hww hl
  · intro hl hllp hw
    apply stepCount_mono_core env sp l w lp w hmono
    exact (div_le_div_iff_of_pos_right hw).mpr hllp

/-- C6 witness: the weak-monotonicity theorem applied at width 2 versus
width 1 (same distance 1) and at distance 1 versus distance 2 (same
width 1). -/
theorem c6_step_monotonicity_weak_witness :
    Monotone qEnv.Log2
      ∧ ((0 : ℚ) ≤ 1 ∧ (0 : ℚ) < 1 ∧ (1 : ℚ) ≤ 2
          ∧ stepCount qEnv 1 2 0 ≤ stepCount qEnv 1 1 0)
      ∧ ((0 : ℚ) ≤ 1 ∧ (1 : ℚ) ≤ 2 ∧ (0 : ℚ) < 1
          ∧ stepCount qEnv 1 1 0 ≤ stepCount qEnv 2 1 0) :=
  have hm : Monotone qEnv.Log2 := fun a b h => by
    show a / 100 ≤ b / 100
    exact (div_le_div_iff_of_pos_right (by norm_num)).mpr h
  ⟨hm,
   ⟨by norm_num, by norm_num, by norm_num,
    (c6_step_monotonicity_weak qEnv 0 1 2 2 1 hm).1 (by norm_num) (by norm_num) (by norm_num)⟩,
   ⟨by norm_num, by norm_num, by norm_num,
    (c6_step_monotonicity_weak qEnv 0 1 2 1 99 hm).2 (by norm_num) (by norm_num) (by norm_num)⟩⟩

/-- C8 counterexample: for the degenerate request `ctxE`, whose start and
destination are both `(100, 100)` with spread 30, the middle vector of the
trace is `(77.5, 77.5)`, which does not coincide with the request's point —
the randomized control points make intermediate samples wander. -/
theorem c8_degenerate_coincide_cex :
    ctxE.start.toVec = ⟨100, 100⟩ ∧ toVector ctxE.dest = ⟨100, 100⟩
      ∧ (BezierMovementAlgorithm.generate zeroSqrtEnv zeroDraws 0 ctxE).vectors
        = [⟨100, 100, none⟩, ⟨155/2, 155/2, none⟩, ⟨100, 100, none⟩]
      ∧ ((⟨155/2, 155/2, none⟩ : PVec)
          ∈ (BezierMovementAlgorithm.generate zeroSqrtEnv zeroDraws 0 ctxE).vectors)
      ∧ ((155 / 2 : ℚ) ≠ 100) :=
  ⟨rfl, rfl, vectorsE, by rw [vectorsE]; simp, by norm_num⟩

/-- C8 amended: a request whose start and destination coincide at `p` always
yields a non-empty trace whose first and last vectors coincide with `p` after
clamping (intermediate vectors may wander), with `metrics.distance = 0`
(given that the square root of zero is zero) and `metrics.steps` equal to the
number of returned vectors. -/
theorem c8_degenerate_trace_valid (env : MathEnv) (rng : RandomDraws) (now : ℤ)
    (s : PVec) (opts : MovementOptions) (h0 : env.Sqrt 0 = 0) :
    (BezierMovementAlgorithm.generate env rng now ⟨s, .point s.toVec, opts⟩).vectors ≠ []
      ∧ (BezierMovementAlgorithm.generate env rng now ⟨s, .point s.toVec, opts⟩).metrics.steps
        = (BezierMovementAlgorithm.generate env rng now ⟨s, .point s.toVec, opts⟩).vectors.length
      ∧ (BezierMovementAlgorithm.generate env rng now ⟨s, .point s.toVec, opts⟩).metrics.distance
        = 0
      ∧ ((BezierMovementAlgorithm.generate env rng now
          ⟨s, .point s.toVec, opts⟩).vectors.head?).map PVec.toVec = some (clampVec s.toVec)
      ∧ ((BezierMovementAlgorithm.generate env rng now
          ⟨s, .point s.toVec, opts⟩).vectors.getLast?).map PVec.toVec
        = some (clampVec s.toVec) := by
  refine ⟨generate_ne_nil env rng now _, rfl, ?_, generate_head_toVec env rng now _, ?_⟩
  · show env.Sqrt ((s.toVec.x - s.toVec.x) ^ 2 + (s.toVec.y - s.toVec.y) ^ 2) = 0
    have h : (s.toVec.x - s.toVec.x) ^ 2 + (s.toVec.y - s.toVec.y) ^ 2 = 0 := by ring
    rw [h, h0]
  · rcases le_or_lt 1 (traceSteps env rng ⟨s, .point s.toVec, opts⟩) with hst | hst
    · exact generate_getLast_toVec_of_pos env rng now _ hst
    · exact generate_getLast_toVec_of_nonpos env rng now _ (by omega)

/-- C8 witness: the degenerate-trace theorem applied to the concrete
coincident request at `(100, 100)`. -/
theorem c8_degenerate_trace_valid_witness :
    qEnv.Sqrt 0 = 0
      ∧ ((BezierMovementAlgorithm.generate qEnv zeroDraws 0
            ⟨⟨100, 100, none⟩, .point ⟨100, 100⟩, ⟨some 30, some 1250, none⟩⟩).vectors ≠ []
          ∧ (BezierMovementAlgorithm.generate qEnv zeroDraws 0
              ⟨⟨100, 100, none⟩, .point ⟨100, 100⟩, ⟨some 30, some 1250, none⟩⟩).metrics.steps
            = (BezierMovementAlgorithm.generate qEnv zeroDraws 0
              ⟨⟨100, 100, none⟩, .point ⟨100, 100⟩,
                ⟨some 30, some 1250, none⟩⟩).vectors.length
          ∧ (BezierMovementAlgorithm.generate qEnv zeroDraws 0
              ⟨⟨100, 100, none⟩, .point ⟨100, 100⟩,
                ⟨some 30, some 1250, none⟩⟩).metrics.distance = 0
          ∧ ((BezierMovementAlgorithm.generate qEnv zeroDraws 0
              ⟨⟨100, 100, none⟩, .point ⟨100, 100⟩,
                ⟨some 30, some 1250, none⟩⟩).vectors.head?).map PVec.toVec
            = some (clampVec ⟨100, 100⟩)
          ∧ ((BezierMovementAlgorithm.generate qEnv zeroDraws 0
              ⟨⟨100, 100, none⟩, .point ⟨100, 100⟩,
                ⟨some 30, some 1250, none⟩⟩).vectors.getLast?).map PVec.toVec
            = some (clampVec ⟨100, 100⟩)) :=
  ⟨rfl, c8_degenerate_trace_valid qEnv zeroDraws 0 ⟨100, 100, none⟩
    ⟨some 30, some 1250, none⟩ rfl⟩

/-- C9: after a successful move, the controller's next generation receives as
its start exactly the last vector committed by the previous move (coordinates
and timestamp alike), so chained moves are continuous. -/
theorem c9_chained_moves_continuous (alg : MovementAlgorithm) (pos : PVec) (d1 d2 : Dest)
    (o1 o2 : Option MovementOptions)
    (hne : (moveTo alg pos d1 o1).2.vectors ≠ []) :
    (moveTo alg (moveTo alg pos d1 o1).1 d2 o2).2
      = alg ⟨(moveTo alg pos d1 o1).2.vectors.getLast hne, d2, normalizeOptions o2⟩ := by
  have h : (moveTo alg pos d1 o1).2.vectors.getLast?.getD pos
      = (moveTo alg pos d1 o1).2.vectors.getLast hne := by
    rw [List.getLast?_eq_getLast _ hne]
    rfl
  show alg ⟨(moveTo alg pos d1 o1).2.vectors.getLast?.getD pos, d2, normalizeOptions o2⟩
      = alg ⟨(moveTo alg pos d1 o1).2.vectors.getLast hne, d2, normalizeOptions o2⟩
  rw [h]

/-- C9 witness: two chained moves of the scripted test-double algorithm; the
second generation starts from the first move's committed last vector
`(5, 6, timestamp 7)`. -/
theorem c9_chained_moves_continuous_witness :
    ((moveTo scriptedAlg ⟨1, 2, none⟩ (.point ⟨5, 6⟩) none).2.vectors ≠ [])
      ∧ (moveTo scriptedAlg (moveTo scriptedAlg ⟨1, 2, none⟩ (.point ⟨5, 6⟩) none).1
            (.point ⟨9, 9⟩) none).2
        = scriptedAlg ⟨(moveTo scriptedAlg ⟨1, 2, none⟩ (.point ⟨5, 6⟩) none).2.vectors.getLast
            (by simp [moveTo, MovementEngine.generate, scriptedAlg]),
            .point ⟨9, 9⟩, normalizeOptions none⟩ :=
  ⟨by simp [moveTo, MovementEngine.generate, scriptedAlg],
   c9_chained_moves_continuous scriptedAlg ⟨1, 2, none⟩ (.point ⟨5, 6⟩) (.point ⟨9, 9⟩)
     none none (by simp [moveTo, MovementEngine.generate, scriptedAlg])⟩

/-- C10: `metrics.distance` is always computed from the request's original
pre-clamp start and the resolved destination; at the concrete request `ctxB`
with negative start it equals 4500 (squared distance under the identity
square root) while the value at the trace's clamped first and last vectors
would be 125 — the two differ. -/
theorem c10_distance_preclamp :
    (∀ (env : MathEnv) (rng : RandomDraws) (now : ℤ) (ctx : MovementContext),
        (BezierMovementAlgorithm.generate env rng now ctx).metrics.distance
          = env.Sqrt (((toVector ctx.dest).x - ctx.start.x) ^ 2
              + ((toVector ctx.dest).y - ctx.start.y) ^ 2))
      ∧ (BezierMovementAlgorithm.generate qEnv zeroDraws 0 ctxB).metrics.distance = 4500
      ∧ (BezierMovementAlgorithm.generate qEnv zeroDraws 0 ctxB).vectors.map PVec.toVec
        = [⟨0, 0⟩, ⟨10, 5⟩]
      ∧ qEnv.Sqrt (((10 : ℚ) - 0) ^ 2 + ((5 : ℚ) - 0) ^ 2) = 125
      ∧ (4500 : ℚ) ≠ 125 := by
  refine ⟨fun env rng now ctx => rfl, ?_, by rw [vectorsB]; rfl, by norm_num [qEnv], by norm_num⟩
  show qEnv.Sqrt (((toVector ctxB.dest).x - ctxB.start.x) ^ 2
      + ((toVector ctxB.dest).y - ctxB.start.y) ^ 2) = 4500
  norm_num [toVector, ctxB, qEnv]

end GhostCursor
